import Mathlib

/-!
Verification of the AWS-translate Lambda handler (`src/lambda_function.py`).

The Python module is shallowly embedded:

* Python values that can appear as a request body (the result of
  `json.loads`, or whatever object the gateway put in `event['body']`)
  are modelled by the inductive `JVal` (JSON numbers are modelled as
  integers; no claim involves fractional numbers).
* Python operations used by the source (`not body` truthiness,
  `field in body` membership, `body[key]` subscription, `dict.get`,
  `str.strip`) are modelled by `pyTruthy`, `pyContains`, `pyGetItem`,
  `pyGet`, `pyStrip`; the fallible ones return `Except PyErr _`, the
  error standing for the Python exception they can raise.
* External capabilities are handler parameters: `json.loads` is a
  function `String → Option JVal` (`none` = `json.JSONDecodeError`),
  the AWS Translate client's `translate_text` is a function returning a
  `TranslateOutcome` (success reply or one of the exception classes the
  source catches), and `datetime.utcnow()` is a `UTCTime` argument.
* `lambda_handler`'s `try`/`except` structure is modelled by running the
  body of the `try` block (`handlerTry`) in `Except Exc` and mapping
  each `Exc` constructor to the envelope built by the corresponding
  `except` clause.
-/

set_option autoImplicit false

namespace AwsTranslate

/-- A Python value as can appear in a decoded JSON request body.
JSON numbers are modelled as integers (no claim involves floats). -/
inductive JVal where
  | null
  | bool (b : Bool)
  | num (n : Int)
  | str (s : String)
  | arr (xs : List JVal)
  | obj (kvs : List (String × JVal))

/-- Structural equality on `JVal`, modelling Python `==` on decoded
JSON values (only ever applied with a string on one side here). -/
def jvalBeq : JVal → JVal → Bool
  | .null, .null => true
  | .bool a, .bool b => a == b
  | .num a, .num b => a == b
  | .str a, .str b => a == b
  | .arr xs, .arr ys => jvalBeqList xs ys
  | .obj xs, .obj ys => jvalBeqObj xs ys
  | _, _ => false
where
  jvalBeqList : List JVal → List JVal → Bool
    | [], [] => true
    | x :: xs, y :: ys => jvalBeq x y && jvalBeqList xs ys
    | _, _ => false
  jvalBeqObj : List (String × JVal) → List (String × JVal) → Bool
    | [], [] => true
    | (k, x) :: xs, (l, y) :: ys => k == l && jvalBeq x y && jvalBeqObj xs ys
    | _, _ => false

instance : BEq JVal := ⟨jvalBeq⟩

/-- A Python exception raised by a basic operation on a `JVal`. -/
inductive PyErr where
  | typeError (msg : String)
  | keyError (msg : String)
  | attributeError (msg : String)

/-- The message of the exception, as `str(e)` would render it.  The
source only logs it; it never reaches a response body. -/
def PyErr.render : PyErr → String
  | .typeError m => m
  | .keyError m => m
  | .attributeError m => m

/-- Python truthiness (`not body` in `validate_input`):  `None`,
`False`, `0`, `""`, `[]` and the empty mapping are falsy. -/
def pyTruthy : JVal → Bool
  | .null => false
  | .bool b => b
  | .num n => n != 0
  | .str s => !s.isEmpty
  | .arr xs => !xs.isEmpty
  | .obj kvs => !kvs.isEmpty

/-- Whether `needle` is a leading segment of `hay`. -/
def startsWithChars : List Char → List Char → Bool
  | [], _ => true
  | _ :: _, [] => false
  | c :: cs, d :: ds => c == d && startsWithChars cs ds

/-- Whether `needle` occurs contiguously in `hay` (Python `sub in str`). -/
def containsSub (needle : List Char) : List Char → Bool
  | [] => startsWithChars needle []
  | d :: ds => startsWithChars needle (d :: ds) || containsSub needle ds

/-- Python `field in body`.  Mappings test key presence, strings test
substring occurrence, lists test element equality; `in` on a number,
boolean or `None` raises `TypeError` (the operand is not iterable). -/
def pyContains (body : JVal) (field : String) : Except PyErr Bool :=
  match body with
  | .obj kvs => .ok (kvs.any (fun kv => kv.1 == field))
  | .str s => .ok (containsSub field.toList s.toList)
  | .arr xs => .ok (xs.any (fun x => x == JVal.str field))
  | .null => .error (.typeError "argument of type 'NoneType' is not iterable")
  | .bool _ => .error (.typeError "argument of type 'bool' is not iterable")
  | .num _ => .error (.typeError "argument of type 'int' is not iterable")

/-- Python `body[key]` with a string key.  On a mapping it looks the key
up (raising `KeyError` when absent); on any other value a string
subscript raises `TypeError`. -/
def pyGetItem (body : JVal) (key : String) : Except PyErr JVal :=
  match body with
  | .obj kvs =>
    match kvs.lookup key with
    | some v => .ok v
    | none => .error (.keyError key)
  | .str _ => .error (.typeError "string indices must be integers")
  | .arr _ => .error (.typeError "list indices must be integers")
  | _ => .error (.typeError "object is not subscriptable")

/-- Python `body.get(key, default)`: only mappings have `.get`; any
other receiver raises `AttributeError`. -/
def pyGet (body : JVal) (key : String) (dflt : JVal) : Except PyErr JVal :=
  match body with
  | .obj kvs => .ok ((kvs.lookup key).getD dflt)
  | _ => .error (.attributeError "object has no attribute get")

/-- The characters removed by Python `str.strip()`: exactly those for
which `str.isspace()` holds: `\t` `\n` `\v` `\f` `\r` (9-13), the
file/group/record/unit separators (28-31), the space (32), the next
line (133), the no-break space (160), the Ogham space mark (5760), the
space separators U+2000-U+200A (8192-8202), the line and paragraph
separators (8232, 8233), the narrow no-break space (8239), the medium
mathematical space (8287) and the ideographic space (12288). -/
def pyWhitespace (c : Char) : Bool :=
  let n := c.toNat
  (9 ≤ n && n ≤ 13) || (28 ≤ n && n ≤ 32) || n == 133 || n == 160 ||
  n == 5760 || (8192 ≤ n && n ≤ 8202) || n == 8232 || n == 8233 ||
  n == 8239 || n == 8287 || n == 12288

/-- Python `s.strip()`: remove leading and trailing whitespace. -/
def pyStrip (s : String) : String :=
  String.mk (((s.toList.dropWhile pyWhitespace).reverse.dropWhile
    pyWhitespace).reverse)

/-- The response dictionary built by the handler.  `headers` is `none`
when the Python dict has no `'headers'` key (every error envelope);
`body` is the object passed to `json.dumps` (serialisation to the wire
string is `jsonDumps`, applied at the boundary). -/
structure Envelope where
  statusCode : Nat
  headers : Option (List (String × String))
  body : JVal

/-- A 400 envelope with an `error` message, as built by
`validate_input` and by the `except` clauses. -/
def errEnvelope (msg : String) : Envelope :=
  ⟨400, none, .obj [("error", .str msg)]⟩

/-- `required_fields = ['text', 'target_language']` (line 21). -/
def required_fields : List String := ["text", "target_language"]

/-- The `for field in required_fields` loop of `validate_input`
(lines 31-38): report the first absent field; membership on a
non-container raises. -/
def checkRequired (fields : List String) (body : JVal) :
    Except PyErr (Option Envelope) :=
  match fields with
  | [] => .ok none
  | f :: rest =>
    match pyContains body f with
    | .error e => .error e
    | .ok true => checkRequired rest body
    | .ok false => .ok (some (errEnvelope ("Missing required field: " ++ f)))

/-- Line 40's test `isinstance(body['text'], str) and body['text'].strip()`:
`true` iff the value is a string with a non-empty strip. -/
def textFieldOk : JVal → Bool
  | .str s => !(pyStrip s).isEmpty
  | _ => false

/-- `validate_input` (lines 19-48).  The Python function returns
`(True, None)` for a valid body and `(False, response)` otherwise; here
`none` stands for the valid case and `some response` for the rejection,
and the `Except` layer carries any exception the checks raise. -/
def validate_input (body : JVal) : Except PyErr (Option Envelope) :=
  if !pyTruthy body then
    .ok (some (errEnvelope "Request body is empty"))
  else
    match checkRequired required_fields body with
    | .error e => .error e
    | .ok (some resp) => .ok (some resp)
    | .ok none =>
      match pyGetItem body "text" with
      | .error e => .error e
      | .ok t =>
        if textFieldOk t then .ok none
        else .ok (some (errEnvelope "Text field must be a non-empty string"))

/-- A UTC instant as produced by `datetime.utcnow()`. -/
structure UTCTime where
  year : Nat
  month : Nat
  day : Nat
  hour : Nat
  minute : Nat
  second : Nat
  microsecond : Nat

/-- The ranges `datetime` guarantees for any real instant. -/
def UTCTime.Valid (t : UTCTime) : Prop :=
  0 < t.year ∧ t.year ≤ 9999 ∧ 1 ≤ t.month ∧ t.month ≤ 12 ∧
  1 ≤ t.day ∧ t.day ≤ 31 ∧ t.hour ≤ 23 ∧ t.minute ≤ 59 ∧
  t.second ≤ 59 ∧ t.microsecond < 1000000

/-- The `w` low decimal digits of `n`, zero padded to exactly `w`
characters (the full numeral whenever `n < 10 ^ w`). -/
def padDigits : Nat → Nat → List Char
  | 0, _ => []
  | w + 1, n => padDigits w (n / 10) ++ [Nat.digitChar (n % 10)]

/-- The characters of `datetime.isoformat()`:
`YYYY-MM-DDTHH:MM:SS` followed by `.ffffff` unless the microsecond
field is zero. -/
def isoformatChars (t : UTCTime) : List Char :=
  padDigits 4 t.year ++ ('-' :: (padDigits 2 t.month ++ ('-' :: (padDigits 2 t.day ++
  ('T' :: (padDigits 2 t.hour ++ (':' :: (padDigits 2 t.minute ++
  (':' :: (padDigits 2 t.second ++
  (if t.microsecond = 0 then [] else '.' :: padDigits 6 t.microsecond)))))))))))

/-- `datetime.isoformat()` as a string. -/
def isoformat (t : UTCTime) : String := String.mk (isoformatChars t)

/-- Consume exactly `k` decimal digits, returning the rest. -/
def dropDigits : Nat → List Char → Option (List Char)
  | 0, cs => some cs
  | _ + 1, [] => none
  | k + 1, c :: cs => if c.isDigit then dropDigits k cs else none

/-- Consume one expected character. -/
def dropChar (ch : Char) : List Char → Option (List Char)
  | [] => none
  | c :: cs => if c == ch then some cs else none

/-- After the seconds: either nothing, or `.` and six digits. -/
def isoTail : List Char → Bool
  | [] => true
  | '.' :: cs => dropDigits 6 cs == some []
  | _ => false

/-- Acceptance check of `datetime.fromisoformat` (as exercised by the
repository's test suite) on the shapes `isoformat` can emit:
`YYYY-MM-DD` then `T`, `HH:MM:SS`, optionally `.ffffff`. -/
def fromisoformatOk (s : String) : Bool :=
  match
    ((((((((((dropDigits 4 s.toList).bind (dropChar '-')).bind
      (dropDigits 2)).bind (dropChar '-')).bind (dropDigits 2)).bind
      (dropChar 'T')).bind (dropDigits 2)).bind (dropChar ':')).bind
      (dropDigits 2)).bind (dropChar ':')).bind (dropDigits 2)
  with
  | none => false
  | some rest => isoTail rest

/-- Hexadecimal digit for `\uXXXX` escapes. -/
def hexDigit (n : Nat) : Char := Nat.digitChar n

/-- Four-digit lowercase hexadecimal, as in `json.dumps` escapes. -/
def hex4 (n : Nat) : List Char :=
  [hexDigit (n / 4096 % 16), hexDigit (n / 256 % 16),
   hexDigit (n / 16 % 16), hexDigit (n % 16)]

/-- `json.dumps` escaping of one character under `ensure_ascii=True`:
the two-character escapes for the JSON control shorthands, `\uXXXX`
for other control or non-ASCII characters (a surrogate pair above the
BMP), and the character itself otherwise. -/
def jsonEscapeChar (c : Char) : List Char :=
  if c == '"' then ['\\', '"']
  else if c == '\\' then ['\\', '\\']
  else if c == '\n' then ['\\', 'n']
  else if c == '\r' then ['\\', 'r']
  else if c == '\t' then ['\\', 't']
  else if c == Char.ofNat 8 then ['\\', 'b']
  else if c == Char.ofNat 12 then ['\\', 'f']
  else if c.toNat < 32 then '\\' :: 'u' :: hex4 c.toNat
  else if c.toNat < 127 then [c]
  else if c.toNat < 65536 then '\\' :: 'u' :: hex4 c.toNat
  else
    '\\' :: 'u' :: hex4 (55296 + (c.toNat - 65536) / 1024) ++
    '\\' :: 'u' :: hex4 (56320 + (c.toNat - 65536) % 1024)

/-- A JSON string literal as `json.dumps` writes it. -/
def jsonQuoteString (s : String) : String :=
  String.mk ('"' :: s.toList.foldr (fun c acc => jsonEscapeChar c ++ acc) ['"'])

/-- `json.dumps` with its default separators (`", "` and `": "`) and
`ensure_ascii=True`, on the value space `JVal`. -/
def jsonDumps : JVal → String
  | .null => "null"
  | .bool true => "true"
  | .bool false => "false"
  | .num n => toString n
  | .str s => jsonQuoteString s
  | .arr xs => "[" ++ jsonDumpsList xs ++ "]"
  | .obj kvs => "\x7b" ++ jsonDumpsObj kvs ++ "\x7d"
where
  jsonDumpsList : List JVal → String
    | [] => ""
    | [x] => jsonDumps x
    | x :: y :: xs => jsonDumps x ++ ", " ++ jsonDumpsList (y :: xs)
  jsonDumpsObj : List (String × JVal) → String
    | [] => ""
    | [(k, v)] => jsonQuoteString k ++ ": " ++ jsonDumps v
    | (k, v) :: p :: kvs =>
      jsonQuoteString k ++ ": " ++ jsonDumps v ++ ", " ++ jsonDumpsObj (p :: kvs)

/-- The success reply of `translate.translate_text`: the fields the
handler reads from the provider's response dictionary. -/
structure TranslateReply where
  TranslatedText : String
  SourceLanguageCode : String
  TargetLanguageCode : String

/-- Outcome of one `translate.translate_text` call: the success reply,
or one of the exception classes the handler distinguishes
(`UnsupportedLanguagePairException`, `InvalidRequestException`, any
other `Exception`), each carrying its `str(e)` message. -/
inductive TranslateOutcome where
  | ok (reply : TranslateReply)
  | unsupportedLanguagePair (msg : String)
  | invalidRequest (msg : String)
  | otherFault (msg : String)

/-- The part of the inbound API-Gateway event the handler reads:
`event['body']`; `none` models an event dictionary without a `'body'`
key (so that `event['body']` raises `KeyError`). -/
structure Event where
  body : Option JVal

/-- The part of the Lambda invocation context the handler reads.  A
supplied context object is always truthy, so `context if context else
None` is modelled by `Option LambdaContext`. -/
structure LambdaContext where
  aws_request_id : String

/-- An exception escaping the `try` block of `lambda_handler`, labelled
by the `except` clause that will catch it. -/
inductive Exc where
  | jsonDecodeError
  | unsupportedLanguagePair (msg : String)
  | invalidRequest (msg : String)
  | other (msg : String)

/-- Line 58: `json.loads(event['body']) if isinstance(event['body'], str)
else event['body']`, with `json.loads` abstracted as `jsonLoads`
(`none` = `json.JSONDecodeError`). -/
def parseEventBody (jsonLoads : String → Option JVal) (raw : JVal) :
    Except Exc JVal :=
  match raw with
  | .str s =>
    match jsonLoads s with
    | some v => .ok v
    | none => .error .jsonDecodeError
  | v => .ok v

/-- The headers of the success envelope (lines 82-85). -/
def successHeaders : List (String × String) :=
  [("Content-Type", "application/json"), ("Access-Control-Allow-Origin", "*")]

/-- The 200 envelope built on a successful provider call (lines 80-92). -/
def successEnvelope (reply : TranslateReply) (now : UTCTime) : Envelope :=
  ⟨200, some successHeaders,
   .obj [("translated_text", .str reply.TranslatedText),
         ("detected_source_language", .str reply.SourceLanguageCode),
         ("target_language", .str reply.TargetLanguageCode),
         ("timestamp", .str (isoformat now))]⟩

/-- The body of `lambda_handler`'s `try` block (lines 56-95): parse,
validate, extract the three parameters, call the provider, build the
success envelope.  An `.error` is an exception reaching the `except`
clauses; an early `.ok` is the validation-failure return on line 64. -/
def handlerTry (jsonLoads : String → Option JVal)
    (translate_text : JVal → JVal → JVal → TranslateOutcome)
    (now : UTCTime) (event : Event) : Except Exc Envelope :=
  match event.body with
  | none => .error (.other "KeyError: body")
  | some raw =>
    match parseEventBody jsonLoads raw with
    | .error e => .error e
    | .ok body =>
      match validate_input body with
      | .error e => .error (.other e.render)
      | .ok (some error_response) => .ok error_response
      | .ok none =>
        match pyGetItem body "text" with
        | .error e => .error (.other e.render)
        | .ok text =>
          match pyGetItem body "target_language" with
          | .error e => .error (.other e.render)
          | .ok target_language =>
            match pyGet body "source_language" (.str "auto") with
            | .error e => .error (.other e.render)
            | .ok source_language =>
              match translate_text text source_language target_language with
              | .ok reply => .ok (successEnvelope reply now)
              | .unsupportedLanguagePair m => .error (.unsupportedLanguagePair m)
              | .invalidRequest m => .error (.invalidRequest m)
              | .otherFault m => .error (.other m)

/-- The `request_id` value of the 500 body (line 128):
`context.aws_request_id if context else None`. -/
def requestIdVal : Option LambdaContext → JVal
  | some c => .str c.aws_request_id
  | none => .null

/-- `lambda_handler` (lines 50-130): run the `try` block and map each
escaping exception through its `except` clause (lines 97-130). -/
def lambda_handler (jsonLoads : String → Option JVal)
    (translate_text : JVal → JVal → JVal → TranslateOutcome)
    (now : UTCTime) (event : Event) (context : Option LambdaContext) :
    Envelope :=
  match handlerTry jsonLoads translate_text now event with
  | .ok result => result
  | .error (.unsupportedLanguagePair m) =>
    ⟨400, none, .obj [("error", .str "Unsupported language pair"),
                      ("detail", .str m)]⟩
  | .error (.invalidRequest m) =>
    ⟨400, none, .obj [("error", .str m)]⟩
  | .error .jsonDecodeError =>
    ⟨400, none, .obj [("error", .str "Invalid JSON in request body")]⟩
  | .error (.other _) =>
    ⟨500, none, .obj [("error", .str "Internal server error"),
                      ("request_id", requestIdVal context)]⟩

/-- Field lookup in a serialised JSON object body (for stating claims
about individual body fields). -/
def lookupField (key : String) : JVal → Option JVal
  | .obj kvs => kvs.lookup key
  | _ => none

/-- Remove one key from an object body (for the idempotence claim's
"identical except for the timestamp field"). -/
def eraseField (key : String) : JVal → JVal
  | .obj kvs => .obj (kvs.filter (fun kv => kv.1 != key))
  | v => v

/-! ## Helper lemmas -/

/-- A key that `List.lookup` finds is seen by the membership test of
`pyContains` on a mapping. -/
theorem lookup_some_any {kvs : List (String × JVal)} {k : String} {v : JVal}
    (h : kvs.lookup k = some v) : (kvs.any fun kv => kv.1 == k) = true := by
  induction kvs with
  | nil => simp [List.lookup] at h
  | cons p rest ih =>
    obtain ⟨k1, v1⟩ := p
    simp only [List.lookup] at h
    by_cases hk : k = k1
    · subst hk; simp
    · have hk' : (k == k1) = false := beq_false_of_ne hk
      rw [hk'] at h
      simp only [List.any_cons]
      have : (k1 == k) = false := beq_false_of_ne (fun e => hk e.symm)
      rw [this]
      simpa using ih h

/-- A key that `List.lookup` misses is absent for `pyContains`. -/
theorem lookup_none_any {kvs : List (String × JVal)} {k : String}
    (h : kvs.lookup k = none) : (kvs.any fun kv => kv.1 == k) = false := by
  induction kvs with
  | nil => simp
  | cons p rest ih =>
    obtain ⟨k1, v1⟩ := p
    simp only [List.lookup] at h
    by_cases hk : k = k1
    · subst hk; simp at h
    · have hk' : (k == k1) = false := beq_false_of_ne hk
      rw [hk'] at h
      simp only [List.any_cons]
      have : (k1 == k) = false := beq_false_of_ne (fun e => hk e.symm)
      rw [this]
      simpa using ih h

/-- A mapping holding both required fields with a good `text` value
passes `validate_input`. -/
theorem validate_input_valid {kvs : List (String × JVal)} {tv lv : JVal}
    (hx : kvs.lookup "text" = some tv)
    (htl : kvs.lookup "target_language" = some lv)
    (hok : textFieldOk tv = true) :
    validate_input (.obj kvs) = .ok none := by
  have hne : kvs ≠ [] := by rintro rfl; simp [List.lookup] at hx
  have hemp : kvs.isEmpty = false := by
    cases kvs with
    | nil => exact absurd rfl hne
    | cons a l => rfl
  simp [validate_input, pyTruthy, hemp, required_fields, checkRequired,
    pyContains, lookup_some_any hx, lookup_some_any htl, pyGetItem, hx, hok]

/-- On a valid mapping body, `handlerTry` reduces to the dispatch on
the provider's outcome, called with the extracted `text`,
`source_language` (defaulted to `"auto"`) and `target_language`. -/
theorem handlerTry_valid {jsonLoads : String → Option JVal}
    (translate_text : JVal → JVal → JVal → TranslateOutcome)
    (now : UTCTime) {event : Event} {raw : JVal}
    {kvs : List (String × JVal)} {tv lv : JVal}
    (hev : event.body = some raw)
    (hparse : parseEventBody jsonLoads raw = .ok (.obj kvs))
    (hx : kvs.lookup "text" = some tv)
    (htl : kvs.lookup "target_language" = some lv)
    (hok : textFieldOk tv = true) :
    handlerTry jsonLoads translate_text now event =
      match translate_text tv ((kvs.lookup "source_language").getD (.str "auto")) lv with
      | .ok reply => .ok (successEnvelope reply now)
      | .unsupportedLanguagePair m => .error (.unsupportedLanguagePair m)
      | .invalidRequest m => .error (.invalidRequest m)
      | .otherFault m => .error (.other m) := by
  simp only [handlerTry, hev, hparse, validate_input_valid hx htl hok,
    pyGetItem, hx, htl, pyGet]

theorem toList_mk (l : List Char) : (String.mk l).toList = l := rfl

theorem padDigits_length (w n : Nat) : (padDigits w n).length = w := by
  induction w generalizing n with
  | zero => rfl
  | succ w ih => simp [padDigits, ih]

theorem digitChar_isDigit {d : Nat} (h : d < 10) :
    (Nat.digitChar d).isDigit = true := by
  interval_cases d <;> decide

theorem padDigits_digits (w n : Nat) :
    ∀ c ∈ padDigits w n, c.isDigit = true := by
  induction w generalizing n with
  | zero => intro c hc; simp [padDigits] at hc
  | succ w ih =>
    intro c hc
    simp only [padDigits, List.mem_append, List.mem_singleton] at hc
    rcases hc with hc | hc
    · exact ih _ c hc
    · subst hc; exact digitChar_isDigit (Nat.mod_lt _ (by omega))

/-- `dropDigits` consumes an all-digit block of matching length. -/
theorem dropDigits_append (ds rest : List Char)
    (hd : ∀ c ∈ ds, c.isDigit = true) :
    dropDigits ds.length (ds ++ rest) = some rest := by
  induction ds with
  | nil => rfl
  | cons c cs ih =>
    simp only [List.length_cons, List.cons_append, dropDigits,
      hd c (by simp), if_true]
    exact ih (fun x hx => hd x (by simp [hx]))

theorem dropDigits_pad (w n : Nat) (rest : List Char) :
    dropDigits w (padDigits w n ++ rest) = some rest := by
  have := dropDigits_append (padDigits w n) rest (padDigits_digits w n)
  rwa [padDigits_length] at this

theorem dropDigits_padOnly (w n : Nat) :
    dropDigits w (padDigits w n) = some [] := by
  have := dropDigits_pad w n []
  rwa [List.append_nil] at this

/-- Every string `isoformat` emits is accepted by the
`fromisoformat`-shaped checker. -/
theorem fromisoformatOk_isoformat (t : UTCTime) :
    fromisoformatOk (isoformat t) = true := by
  rw [fromisoformatOk, isoformat, toList_mk, isoformatChars]
  simp only [dropDigits_pad, dropChar, Option.some_bind, beq_self_eq_true,
    if_true]
  by_cases hm : t.microsecond = 0
  · simp [hm, isoTail]
  · simp [hm, isoTail, dropDigits_padOnly]

/-! ## Shape of the envelopes the handler can return -/

/-- Any rejection envelope of `checkRequired` is an `errEnvelope`. -/
theorem checkRequired_some {fields : List String} {body : JVal}
    {resp : Envelope}
    (h : checkRequired fields body = .ok (some resp)) :
    ∃ m, resp = errEnvelope m := by
  induction fields with
  | nil => simp [checkRequired] at h
  | cons f rest ih =>
    rw [checkRequired] at h
    rcases hc : pyContains body f with e | b
    · rw [hc] at h; cases h
    · rw [hc] at h
      cases b with
      | true => exact ih h
      | false =>
        simp only [Except.ok.injEq, Option.some.injEq] at h
        exact ⟨_, h.symm⟩

/-- Any rejection envelope of `validate_input` is an `errEnvelope`. -/
theorem validate_input_some {body : JVal} {resp : Envelope}
    (h : validate_input body = .ok (some resp)) :
    ∃ m, resp = errEnvelope m := by
  rw [validate_input] at h
  by_cases ht : pyTruthy body
  · rw [if_neg (by simp [ht])] at h
    rcases hc : checkRequired required_fields body with e | o
    · rw [hc] at h; cases h
    · rw [hc] at h
      cases o with
      | some r =>
        simp only [Except.ok.injEq, Option.some.injEq] at h
        exact h ▸ checkRequired_some hc
      | none =>
        rcases hg : pyGetItem body "text" with e | tv
        · rw [hg] at h; cases h
        · rw [hg] at h
          by_cases hok : textFieldOk tv
          · simp [hok] at h
          · simp only [hok, Bool.false_eq_true, if_false, Except.ok.injEq,
              Option.some.injEq] at h
            exact ⟨_, h.symm⟩
  · rw [if_pos (by simp [ht])] at h
    simp only [Except.ok.injEq, Option.some.injEq] at h
    exact ⟨_, h.symm⟩

/-- Any `.ok` result of the `try` block is either the success envelope
shape or a validation `errEnvelope`. -/
theorem handlerTry_ok_shape {jsonLoads : String → Option JVal}
    {translate_text : JVal → JVal → JVal → TranslateOutcome}
    {now : UTCTime} {event : Event} {r : Envelope}
    (h : handlerTry jsonLoads translate_text now event = .ok r) :
    (∃ reply, r = successEnvelope reply now) ∨ (∃ m, r = errEnvelope m) := by
  rw [handlerTry] at h
  repeat' split at h
  all_goals try exact Except.noConfusion h
  · rename_i hv
    cases h
    exact Or.inr (validate_input_some hv)
  · cases h
    exact Or.inl ⟨_, rfl⟩

/-- The only use the `try` block makes of the clock is the timestamp
field of the success body: changing the instant either changes nothing
or only the `successEnvelope` timestamp. -/
theorem handlerTry_time (jsonLoads : String → Option JVal)
    (translate_text : JVal → JVal → JVal → TranslateOutcome)
    (event : Event) (t1 t2 : UTCTime) :
    handlerTry jsonLoads translate_text t1 event =
      handlerTry jsonLoads translate_text t2 event ∨
    ∃ reply,
      handlerTry jsonLoads translate_text t1 event =
        .ok (successEnvelope reply t1) ∧
      handlerTry jsonLoads translate_text t2 event =
        .ok (successEnvelope reply t2) := by
  cases hb : event.body with
  | none => exact Or.inl (by simp only [handlerTry, hb])
  | some raw =>
    cases hp : parseEventBody jsonLoads raw with
    | error e => exact Or.inl (by simp only [handlerTry, hb, hp])
    | ok body =>
      cases hv : validate_input body with
      | error e => exact Or.inl (by simp only [handlerTry, hb, hp, hv])
      | ok o =>
        cases o with
        | some resp => exact Or.inl (by simp only [handlerTry, hb, hp, hv])
        | none =>
          cases h1 : pyGetItem body "text" with
          | error e => exact Or.inl (by simp only [handlerTry, hb, hp, hv, h1])
          | ok tv =>
            cases h2 : pyGetItem body "target_language" with
            | error e =>
              exact Or.inl (by simp only [handlerTry, hb, hp, hv, h1, h2])
            | ok lv =>
              cases h3 : pyGet body "source_language" (.str "auto") with
              | error e =>
                exact Or.inl (by simp only [handlerTry, hb, hp, hv, h1, h2, h3])
              | ok sv =>
                cases h4 : translate_text tv sv lv with
                | ok reply =>
                  refine Or.inr ⟨reply, ?_, ?_⟩ <;>
                    simp only [handlerTry, hb, hp, hv, h1, h2, h3, h4]
                | unsupportedLanguagePair m =>
                  exact Or.inl
                    (by simp only [handlerTry, hb, hp, hv, h1, h2, h3, h4])
                | invalidRequest m =>
                  exact Or.inl
                    (by simp only [handlerTry, hb, hp, hv, h1, h2, h3, h4])
                | otherFault m =>
                  exact Or.inl
                    (by simp only [handlerTry, hb, hp, hv, h1, h2, h3, h4])

/-! ## Claims -/

/-- C1: for every event whose body is (or decodes to) a mapping with a
non-whitespace string `text` and a present `target_language`, a
successful provider call makes the handler return the 200 envelope with
`Content-Type: application/json` and `Access-Control-Allow-Origin: *`
headers and a JSON body whose `translated_text`,
`detected_source_language` and `target_language` equal the provider
reply's `TranslatedText`, `SourceLanguageCode` and `TargetLanguageCode`,
plus a parseable ISO-8601 `timestamp` field. -/
theorem claim1_valid_success_envelope
    {jsonLoads : String → Option JVal}
    {translate_text : JVal → JVal → JVal → TranslateOutcome}
    {now : UTCTime} {event : Event} {context : Option LambdaContext}
    {raw : JVal} {kvs : List (String × JVal)} {t : String} {lv : JVal}
    {reply : TranslateReply}
    (hev : event.body = some raw)
    (hparse : parseEventBody jsonLoads raw = .ok (.obj kvs))
    (ht : kvs.lookup "text" = some (.str t))
    (hstrip : (pyStrip t).isEmpty = false)
    (htl : kvs.lookup "target_language" = some lv)
    (hprov : translate_text (.str t)
      ((kvs.lookup "source_language").getD (.str "auto")) lv = .ok reply) :
    lambda_handler jsonLoads translate_text now event context =
      successEnvelope reply now ∧
    (successEnvelope reply now).statusCode = 200 ∧
    (successEnvelope reply now).headers =
      some [("Content-Type", "application/json"),
            ("Access-Control-Allow-Origin", "*")] ∧
    lookupField "translated_text" (successEnvelope reply now).body =
      some (.str reply.TranslatedText) ∧
    lookupField "detected_source_language" (successEnvelope reply now).body =
      some (.str reply.SourceLanguageCode) ∧
    lookupField "target_language" (successEnvelope reply now).body =
      some (.str reply.TargetLanguageCode) ∧
    lookupField "timestamp" (successEnvelope reply now).body =
      some (.str (isoformat now)) ∧
    fromisoformatOk (isoformat now) = true := by
  have hok : textFieldOk (.str t) = true := by simp [textFieldOk, hstrip]
  have hrun := handlerTry_valid translate_text now hev hparse ht htl hok
  rw [hprov] at hrun
  exact ⟨by rw [lambda_handler, hrun], rfl, rfl, rfl, rfl, rfl, rfl,
    fromisoformatOk_isoformat now⟩

/-- Witness for C1 at the repository's own test scenario. -/
theorem claim1_witness :
    lambda_handler
        (fun _ => some (.obj [("text", .str "Hello world!"),
                              ("target_language", .str "es")]))
        (fun _ _ _ => .ok ⟨"¡Hola mundo!", "en", "es"⟩)
        ⟨2026, 10, 12, 0, 0, 0, 0⟩ ⟨some (.str "payload")⟩ none =
      successEnvelope ⟨"¡Hola mundo!", "en", "es"⟩ ⟨2026, 10, 12, 0, 0, 0, 0⟩ ∧
    (successEnvelope ⟨"¡Hola mundo!", "en", "es"⟩
      ⟨2026, 10, 12, 0, 0, 0, 0⟩).statusCode = 200 ∧
    (successEnvelope ⟨"¡Hola mundo!", "en", "es"⟩
      ⟨2026, 10, 12, 0, 0, 0, 0⟩).headers =
      some [("Content-Type", "application/json"),
            ("Access-Control-Allow-Origin", "*")] ∧
    lookupField "translated_text" (successEnvelope
        ⟨"¡Hola mundo!", "en", "es"⟩ ⟨2026, 10, 12, 0, 0, 0, 0⟩).body =
      some (.str "¡Hola mundo!") ∧
    lookupField "detected_source_language" (successEnvelope
        ⟨"¡Hola mundo!", "en", "es"⟩ ⟨2026, 10, 12, 0, 0, 0, 0⟩).body =
      some (.str "en") ∧
    lookupField "target_language" (successEnvelope
        ⟨"¡Hola mundo!", "en", "es"⟩ ⟨2026, 10, 12, 0, 0, 0, 0⟩).body =
      some (.str "es") ∧
    lookupField "timestamp" (successEnvelope
        ⟨"¡Hola mundo!", "en", "es"⟩ ⟨2026, 10, 12, 0, 0, 0, 0⟩).body =
      some (.str (isoformat ⟨2026, 10, 12, 0, 0, 0, 0⟩)) ∧
    fromisoformatOk (isoformat ⟨2026, 10, 12, 0, 0, 0, 0⟩) = true :=
  claim1_valid_success_envelope rfl rfl rfl rfl rfl rfl

/-- C2: for every event, context, provider behaviour, decoder behaviour
and clock reading, the handler returns an envelope, and unless that
envelope is the 200 success it carries a JSON body with a string
`error` field (no fault propagates out of the boundary: the Lean
encoding of the `try`/`except` boundary is total). -/
theorem claim2_total_error_field (jsonLoads : String → Option JVal)
    (translate_text : JVal → JVal → JVal → TranslateOutcome)
    (now : UTCTime) (event : Event) (context : Option LambdaContext) :
    (lambda_handler jsonLoads translate_text now event context).statusCode
      = 200 ∨
    ∃ m, lookupField "error"
      (lambda_handler jsonLoads translate_text now event context).body =
      some (.str m) := by
  rw [lambda_handler]
  cases hr : handlerTry jsonLoads translate_text now event with
  | ok r =>
    rcases handlerTry_ok_shape hr with ⟨reply, rfl⟩ | ⟨m, rfl⟩
    · exact Or.inl rfl
    · exact Or.inr ⟨m, rfl⟩
  | error e =>
    cases e with
    | jsonDecodeError => exact Or.inr ⟨_, rfl⟩
    | unsupportedLanguagePair m => exact Or.inr ⟨_, rfl⟩
    | invalidRequest m => exact Or.inr ⟨_, rfl⟩
    | other m => exact Or.inr ⟨_, rfl⟩

/-- C3: on a valid request, any provider fault other than the
unsupported-pair and invalid-request exceptions yields status 500 with
body exactly `error: "Internal server error"` and `request_id` the
context's correlation id when a context was supplied and `null`
otherwise; the provider's message `m` does not occur in the body (the
body is a constant in which `m` does not appear). -/
theorem claim3_other_fault_500
    {jsonLoads : String → Option JVal}
    {translate_text : JVal → JVal → JVal → TranslateOutcome}
    {now : UTCTime} {event : Event} {context : Option LambdaContext}
    {raw : JVal} {kvs : List (String × JVal)} {t : String} {lv : JVal}
    {m : String}
    (hev : event.body = some raw)
    (hparse : parseEventBody jsonLoads raw = .ok (.obj kvs))
    (ht : kvs.lookup "text" = some (.str t))
    (hstrip : (pyStrip t).isEmpty = false)
    (htl : kvs.lookup "target_language" = some lv)
    (hprov : translate_text (.str t)
      ((kvs.lookup "source_language").getD (.str "auto")) lv =
      .otherFault m) :
    lambda_handler jsonLoads translate_text now event context =
      ⟨500, none, .obj [("error", .str "Internal server error"),
                        ("request_id", requestIdVal context)]⟩ ∧
    (∀ c, context = some c →
      requestIdVal context = .str c.aws_request_id) ∧
    (context = none → requestIdVal context = .null) := by
  have hok : textFieldOk (.str t) = true := by simp [textFieldOk, hstrip]
  have hrun := handlerTry_valid translate_text now hev hparse ht htl hok
  rw [hprov] at hrun
  refine ⟨by rw [lambda_handler, hrun], ?_, ?_⟩
  · rintro c rfl; rfl
  · rintro rfl; rfl

/-- Witness for C3: a valid request, a provider that only faults, and a
supplied context with correlation id `"test-request-id"`. -/
theorem claim3_witness :
    lambda_handler
        (fun _ => some (.obj [("text", .str "Hello world!"),
                              ("target_language", .str "es")]))
        (fun _ _ _ => .otherFault "AWS Translate service error")
        ⟨2026, 10, 12, 0, 0, 0, 0⟩ ⟨some (.str "payload")⟩
        (some ⟨"test-request-id"⟩) =
      ⟨500, none, .obj [("error", .str "Internal server error"),
        ("request_id", requestIdVal (some ⟨"test-request-id"⟩))]⟩ ∧
    (∀ c, (some (⟨"test-request-id"⟩ : LambdaContext)) = some c →
      requestIdVal (some ⟨"test-request-id"⟩) = .str c.aws_request_id) ∧
    ((some (⟨"test-request-id"⟩ : LambdaContext)) = none →
      requestIdVal (some ⟨"test-request-id"⟩) = .null) :=
  claim3_other_fault_500 rfl rfl rfl rfl rfl rfl

/-- C4: an empty-but-present mapping body (`{}`) and an absent body
(JSON `null`, the value an HTTP gateway supplies when the request has
no body) are coalesced: both produce the 400 envelope with error
`"Request body is empty"`.  (An event dictionary with no `'body'` key
at all is a different situation: `event['body']` raises `KeyError`.) -/
theorem claim4_empty_and_null_body_coalesce
    (jsonLoads : String → Option JVal)
    (translate_text : JVal → JVal → JVal → TranslateOutcome)
    (now : UTCTime) (context : Option LambdaContext) :
    lambda_handler jsonLoads translate_text now ⟨some (.obj [])⟩ context =
      errEnvelope "Request body is empty" ∧
    lambda_handler jsonLoads translate_text now ⟨some .null⟩ context =
      errEnvelope "Request body is empty" ∧
    (errEnvelope "Request body is empty").statusCode = 400 := by
  exact ⟨rfl, rfl, rfl⟩

/-- C5: on a valid request, the provider's unsupported-language-pair
exception yields status 400 with error `"Unsupported language pair"`
and a `detail` field equal to the provider's message. -/
theorem claim5_unsupported_pair_400
    {jsonLoads : String → Option JVal}
    {translate_text : JVal → JVal → JVal → TranslateOutcome}
    {now : UTCTime} {event : Event} {context : Option LambdaContext}
    {raw : JVal} {kvs : List (String × JVal)} {t : String} {lv : JVal}
    {m : String}
    (hev : event.body = some raw)
    (hparse : parseEventBody jsonLoads raw = .ok (.obj kvs))
    (ht : kvs.lookup "text" = some (.str t))
    (hstrip : (pyStrip t).isEmpty = false)
    (htl : kvs.lookup "target_language" = some lv)
    (hprov : translate_text (.str t)
      ((kvs.lookup "source_language").getD (.str "auto")) lv =
      .unsupportedLanguagePair m) :
    lambda_handler jsonLoads translate_text now event context =
      ⟨400, none, .obj [("error", .str "Unsupported language pair"),
                        ("detail", .str m)]⟩ ∧
    lookupField "detail"
      (lambda_handler jsonLoads translate_text now event context).body =
      some (.str m) := by
  have hok : textFieldOk (.str t) = true := by simp [textFieldOk, hstrip]
  have hrun := handlerTry_valid translate_text now hev hparse ht htl hok
  rw [hprov] at hrun
  have hmain :
      lambda_handler jsonLoads translate_text now event context =
        ⟨400, none, .obj [("error", .str "Unsupported language pair"),
                          ("detail", .str m)]⟩ := by
    rw [lambda_handler, hrun]
  exact ⟨hmain, by rw [hmain]; rfl⟩

/-- Witness for C5. -/
theorem claim5_witness :
    lambda_handler
        (fun _ => some (.obj [("text", .str "Hello world!"),
                              ("target_language", .str "es")]))
        (fun _ _ _ => .unsupportedLanguagePair "Unsupported language pair")
        ⟨2026, 10, 12, 0, 0, 0, 0⟩ ⟨some (.str "payload")⟩ none =
      ⟨400, none, .obj [("error", .str "Unsupported language pair"),
        ("detail", .str "Unsupported language pair")]⟩ ∧
    lookupField "detail"
      (lambda_handler
        (fun _ => some (.obj [("text", .str "Hello world!"),
                              ("target_language", .str "es")]))
        (fun _ _ _ => .unsupportedLanguagePair "Unsupported language pair")
        ⟨2026, 10, 12, 0, 0, 0, 0⟩ ⟨some (.str "payload")⟩ none).body =
      some (.str "Unsupported language pair") :=
  claim5_unsupported_pair_400 rfl rfl rfl rfl rfl rfl

/-- C6: for a non-empty mapping body missing a required field, the
handler returns 400 naming only the first missing field, in the order
`text` then `target_language`: a body without `text` is reported as
missing `text` (whether or not `target_language` is present), a body
with `text` but without `target_language` is reported as missing
`target_language`; no aggregation of several errors takes place. -/
theorem claim6_first_missing_field
    (jsonLoads : String → Option JVal)
    (translate_text : JVal → JVal → JVal → TranslateOutcome)
    (now : UTCTime) (event : Event) (context : Option LambdaContext)
    (raw : JVal) (kvs : List (String × JVal))
    (hev : event.body = some raw)
    (hparse : parseEventBody jsonLoads raw = .ok (.obj kvs))
    (hne : kvs ≠ []) :
    (kvs.lookup "text" = none →
      lambda_handler jsonLoads translate_text now event context =
        errEnvelope "Missing required field: text") ∧
    (∀ v, kvs.lookup "text" = some v → kvs.lookup "target_language" = none →
      lambda_handler jsonLoads translate_text now event context =
        errEnvelope "Missing required field: target_language") := by
  have hemp : kvs.isEmpty = false := by
    cases kvs with
    | nil => exact absurd rfl hne
    | cons a l => rfl
  constructor
  · intro hmiss
    have hval : validate_input (.obj kvs) =
        .ok (some (errEnvelope "Missing required field: text")) := by
      simp [validate_input, pyTruthy, hemp, required_fields, checkRequired,
        pyContains, lookup_none_any hmiss]
    simp only [lambda_handler, handlerTry, hev, hparse, hval, errEnvelope]
  · intro v hv hmiss
    have hval : validate_input (.obj kvs) =
        .ok (some (errEnvelope "Missing required field: target_language")) := by
      simp [validate_input, pyTruthy, hemp, required_fields, checkRequired,
        pyContains, lookup_some_any hv, lookup_none_any hmiss]
    simp only [lambda_handler, handlerTry, hev, hparse, hval, errEnvelope]

/-- Witness for C6: a body holding only `target_language` is reported
as missing `text`; a body holding only `text` as missing
`target_language`. -/
theorem claim6_witness :
    ((([("target_language", JVal.str "es")] : List (String × JVal)).lookup
        "text" = none →
      lambda_handler (fun _ => some (.obj [("target_language", .str "es")]))
        (fun _ _ _ => .ok ⟨"¡Hola mundo!", "en", "es"⟩)
        ⟨2026, 10, 12, 0, 0, 0, 0⟩ ⟨some (.str "payload")⟩ none =
        errEnvelope "Missing required field: text") ∧
    (∀ v, ([("target_language", JVal.str "es")] :
        List (String × JVal)).lookup "text" = some v →
      ([("target_language", JVal.str "es")] :
        List (String × JVal)).lookup "target_language" = none →
      lambda_handler (fun _ => some (.obj [("target_language", .str "es")]))
        (fun _ _ _ => .ok ⟨"¡Hola mundo!", "en", "es"⟩)
        ⟨2026, 10, 12, 0, 0, 0, 0⟩ ⟨some (.str "payload")⟩ none =
        errEnvelope "Missing required field: target_language")) ∧
    lambda_handler (fun _ => some (.obj [("target_language", .str "es")]))
      (fun _ _ _ => .ok ⟨"¡Hola mundo!", "en", "es"⟩)
      ⟨2026, 10, 12, 0, 0, 0, 0⟩ ⟨some (.str "payload")⟩ none =
      errEnvelope "Missing required field: text" ∧
    lambda_handler (fun _ => some (.obj [("text", .str "Hello world!")]))
      (fun _ _ _ => .ok ⟨"¡Hola mundo!", "en", "es"⟩)
      ⟨2026, 10, 12, 0, 0, 0, 0⟩ ⟨some (.str "payload")⟩ none =
      errEnvelope "Missing required field: target_language" := by
  refine ⟨claim6_first_missing_field
    (fun _ => some (.obj [("target_language", .str "es")]))
    (fun _ _ _ => .ok ⟨"¡Hola mundo!", "en", "es"⟩)
    ⟨2026, 10, 12, 0, 0, 0, 0⟩ ⟨some (.str "payload")⟩ none (.str "payload")
    [("target_language", JVal.str "es")] rfl rfl (by simp), ?_, ?_⟩
  · exact (claim6_first_missing_field
      (fun _ => some (.obj [("target_language", .str "es")]))
      (fun _ _ _ => .ok ⟨"¡Hola mundo!", "en", "es"⟩)
      ⟨2026, 10, 12, 0, 0, 0, 0⟩ ⟨some (.str "payload")⟩ none (.str "payload")
      [("target_language", JVal.str "es")] rfl rfl (by simp)).1 rfl
  · exact (claim6_first_missing_field
      (fun _ => some (.obj [("text", .str "Hello world!")]))
      (fun _ _ _ => .ok ⟨"¡Hola mundo!", "en", "es"⟩)
      ⟨2026, 10, 12, 0, 0, 0, 0⟩ ⟨some (.str "payload")⟩ none (.str "payload")
      [("text", JVal.str "Hello world!")] rfl rfl (by simp)).2
      (.str "Hello world!") rfl rfl

/-- C7: for a mapping body holding both required fields whose `text`
value is not a string, or is a string that strips to empty, the handler
returns 400 with error `"Text field must be a non-empty string"`. -/
theorem claim7_bad_text_400
    {jsonLoads : String → Option JVal}
    {translate_text : JVal → JVal → JVal → TranslateOutcome}
    {now : UTCTime} {event : Event} {context : Option LambdaContext}
    {raw : JVal} {kvs : List (String × JVal)} {tv lv : JVal}
    (hev : event.body = some raw)
    (hparse : parseEventBody jsonLoads raw = .ok (.obj kvs))
    (ht : kvs.lookup "text" = some tv)
    (htl : kvs.lookup "target_language" = some lv)
    (hbad : (∀ s, tv ≠ .str s) ∨ (∃ s, tv = .str s ∧ pyStrip s = "")) :
    lambda_handler jsonLoads translate_text now event context =
      errEnvelope "Text field must be a non-empty string" := by
  have hemp : kvs.isEmpty = false := by
    cases kvs with
    | nil => simp [List.lookup] at ht
    | cons a l => rfl
  have hbadOk : textFieldOk tv = false := by
    rcases hbad with h | ⟨s, rfl, hs⟩
    · cases tv with
      | str s => exact absurd rfl (h s)
      | null => rfl
      | bool b => rfl
      | num n => rfl
      | arr xs => rfl
      | obj kvs => rfl
    · simp only [textFieldOk, hs]
      decide
  have hval : validate_input (.obj kvs) =
      .ok (some (errEnvelope "Text field must be a non-empty string")) := by
    simp [validate_input, pyTruthy, hemp, required_fields, checkRequired,
      pyContains, lookup_some_any ht, lookup_some_any htl, pyGetItem, ht,
      hbadOk]
  simp only [lambda_handler, handlerTry, hev, hparse, hval, errEnvelope]

/-- Witness for C7: an empty `text` (as in the repository's
`empty_text_event` fixture) and a numeric `text`. -/
theorem claim7_witness :
    lambda_handler
      (fun _ => some (.obj [("text", .str ""), ("target_language", .str "es")]))
      (fun _ _ _ => .ok ⟨"¡Hola mundo!", "en", "es"⟩)
      ⟨2026, 10, 12, 0, 0, 0, 0⟩ ⟨some (.str "payload")⟩ none =
      errEnvelope "Text field must be a non-empty string" ∧
    lambda_handler
      (fun _ => some (.obj [("text", .num 7), ("target_language", .str "es")]))
      (fun _ _ _ => .ok ⟨"¡Hola mundo!", "en", "es"⟩)
      ⟨2026, 10, 12, 0, 0, 0, 0⟩ ⟨some (.str "payload")⟩ none =
      errEnvelope "Text field must be a non-empty string" ∧
    lambda_handler
      (fun _ => some (.obj [("text", .str "\u00A0"),
                            ("target_language", .str "es")]))
      (fun _ _ _ => .ok ⟨"¡Hola mundo!", "en", "es"⟩)
      ⟨2026, 10, 12, 0, 0, 0, 0⟩ ⟨some (.str "payload")⟩ none =
      errEnvelope "Text field must be a non-empty string" := by
  refine ⟨?_, ?_, ?_⟩
  · exact claim7_bad_text_400 rfl rfl rfl rfl (Or.inr ⟨"", rfl, rfl⟩)
  · exact claim7_bad_text_400 rfl rfl rfl rfl
      (Or.inl (fun s h => JVal.noConfusion h))
  · exact claim7_bad_text_400 rfl rfl rfl rfl
      (Or.inr ⟨"\u00A0", rfl, by decide⟩)

/-- C8: for every event whose body is a string the JSON decoder
rejects, the handler returns 400 with error exactly `"Invalid JSON in
request body"` — a syntax-level outcome whose message differs from
every semantic validation message. -/
theorem claim8_invalid_json_400
    {jsonLoads : String → Option JVal}
    {translate_text : JVal → JVal → JVal → TranslateOutcome}
    {now : UTCTime} {event : Event} {context : Option LambdaContext}
    {s : String}
    (hev : event.body = some (.str s))
    (hdec : jsonLoads s = none) :
    lambda_handler jsonLoads translate_text now event context =
      errEnvelope "Invalid JSON in request body" := by
  simp only [lambda_handler, handlerTry, hev, parseEventBody, hdec, errEnvelope]

/-- Witness for C8 at the repository's `malformed_json_event` (a
truncated JSON object string, rejected by any correct decoder). -/
theorem claim8_witness :
    lambda_handler (fun _ => none)
      (fun _ _ _ => .ok ⟨"¡Hola mundo!", "en", "es"⟩)
      ⟨2026, 10, 12, 0, 0, 0, 0⟩
      ⟨some (.str "\x7b\"text\": \"Hello world!\", \"target_language\": \"es\"")⟩
      none =
      errEnvelope "Invalid JSON in request body" :=
  claim8_invalid_json_400 rfl rfl

/-- C9: with the same event, context, decoder and provider, two
invocations at different instants return envelopes with the same status
code whose serialised bodies are byte-identical once the `timestamp`
member is erased (error bodies carry no timestamp at all, success
bodies differ only there). -/
theorem claim9_idempotent_modulo_timestamp
    (jsonLoads : String → Option JVal)
    (translate_text : JVal → JVal → JVal → TranslateOutcome)
    (event : Event) (context : Option LambdaContext) (t1 t2 : UTCTime) :
    (lambda_handler jsonLoads translate_text t1 event context).statusCode =
      (lambda_handler jsonLoads translate_text t2 event context).statusCode ∧
    eraseField "timestamp"
        (lambda_handler jsonLoads translate_text t1 event context).body =
      eraseField "timestamp"
        (lambda_handler jsonLoads translate_text t2 event context).body ∧
    jsonDumps (eraseField "timestamp"
        (lambda_handler jsonLoads translate_text t1 event context).body) =
      jsonDumps (eraseField "timestamp"
        (lambda_handler jsonLoads translate_text t2 event context).body) := by
  rcases handlerTry_time jsonLoads translate_text event t1 t2 with
    h | ⟨reply, h1, h2⟩
  · rw [lambda_handler, lambda_handler, h]
    exact ⟨rfl, rfl, rfl⟩
  · rw [lambda_handler, lambda_handler, h1, h2]
    exact ⟨rfl, rfl, rfl⟩

/-- C10: a truthy body that is neither a mapping nor a value supporting
membership tests (a JSON number or boolean) makes the required-field
check raise `TypeError`, which the catch-all clause turns into the
generic 500 envelope — not a 400 validation error. -/
theorem claim10_non_container_500
    {jsonLoads : String → Option JVal}
    {translate_text : JVal → JVal → JVal → TranslateOutcome}
    {now : UTCTime} {event : Event} {context : Option LambdaContext}
    {raw body : JVal}
    (hev : event.body = some raw)
    (hparse : parseEventBody jsonLoads raw = .ok body)
    (htr : pyTruthy body = true)
    (hshape : (∃ n, body = .num n) ∨ (∃ b, body = .bool b)) :
    lambda_handler jsonLoads translate_text now event context =
      ⟨500, none, .obj [("error", .str "Internal server error"),
                        ("request_id", requestIdVal context)]⟩ := by
  have hval : ∃ e, validate_input body = .error e := by
    rcases hshape with ⟨n, rfl⟩ | ⟨b, rfl⟩ <;>
      simp [validate_input, htr, required_fields, checkRequired, pyContains]
  obtain ⟨e, hval⟩ := hval
  simp only [lambda_handler, handlerTry, hev, hparse, hval, errEnvelope]

/-- Witness for C10: the JSON number `5` as whole body. -/
theorem claim10_witness :
    lambda_handler (fun _ => some (.num 5))
      (fun _ _ _ => .ok ⟨"¡Hola mundo!", "en", "es"⟩)
      ⟨2026, 10, 12, 0, 0, 0, 0⟩ ⟨some (.str "5")⟩ none =
      ⟨500, none, .obj [("error", .str "Internal server error"),
                        ("request_id", requestIdVal none)]⟩ :=
  claim10_non_container_500 rfl rfl rfl (Or.inl ⟨5, rfl⟩)

end AwsTranslate
